import Mathlib

/-!
Shallow embedding of the MaxScale filter pipeline core
(`server/core/filter.c`, `include/maxscale/filter.h`) and the cache
filter configuration defaults (`server/modules/filter/cache/cachefilter.h`).

Pointers to module-private data (`FILTER`, session handles, function
pointers) are modelled as abstract `Nat` tokens; a nullable pointer is an
`Option`.  The global registry `allFilters` (a singly linked list with
head insertion) is modelled as a `List FILTER_DEF` threaded explicitly
through the operations.  Null-terminated `char **` arrays are modelled as
`List (Option String)`, where `none` is the terminating NULL sentinel.
Allocation outcomes (`MXS_STRDUP` / `MXS_MALLOC` / `MXS_CALLOC` returning
NULL) are explicit boolean parameters.  Calls into the loaded module
(`load_module`, `createInstance`, `newSession`, `setDownstream`,
`setUpstream`) are modelled as function parameters or fields, with the
side-effecting ones recorded as effect flags in the result.
-/

namespace MaxScale

/-- Abstract machine pointer / opaque handle. -/
abbrev Ptr := Nat

/-- FILTER_PARAMETER: a name/value pair passed to filter instances. -/
structure FILTER_PARAMETER where
  name : String
  value : String
deriving DecidableEq, Repr

/-- FILTER_OBJECT: the module's entry-point table.  Only the entry points
that the embedded operations of filter.c actually read are modelled:
`createInstance` and `newSession` as functions (their results drive
control flow), `setUpstream`, `clientReply` and `routeQuery` as nullable
function-pointer tokens (filter.c only tests them against NULL and stores
them into chain nodes).  `setDownstream` is invoked but never inspected,
so its invocation is recorded as an effect flag instead of a field;
`closeSession`, `freeSession`, `diagnostics` and `getCapabilities` are
never read by the embedded operations. -/
structure FILTER_OBJECT where
  createInstance : String → Option (List (Option String)) →
    Option (List (Option FILTER_PARAMETER)) → Option Ptr
  newSession : Option Ptr → Ptr → Option Ptr
  setUpstream : Option Ptr
  clientReply : Option Ptr
  routeQuery : Ptr

/-- FILTER_DEF: the definition of a filter from the configuration file.
The `next` link of the C struct is implicit in the registry list; `id`
stands for the node's address (pointer identity), used by `filter_free`'s
unlink scan.  `filter` is the shared runtime instance, `obj` the loaded
module object; both start as NULL. -/
structure FILTER_DEF where
  id : Ptr
  name : String
  module : String
  options : Option (List (Option String))
  parameters : Option (List (Option FILTER_PARAMETER))
  filter : Option Ptr
  obj : Option FILTER_OBJECT

/-- DOWNSTREAM chain node: shared instance pointer, bound routeQuery
entry point, and the per-session handle returned by newSession. -/
structure DOWNSTREAM where
  inst : Option Ptr
  routeQuery : Ptr
  session : Option Ptr
deriving DecidableEq, Repr

/-- UPSTREAM chain node: shared instance pointer, the filter session
handle, and the bound clientReply entry point. -/
structure UPSTREAM where
  inst : Option Ptr
  session : Option Ptr
  clientReply : Option Ptr
deriving DecidableEq, Repr

/-- filter_alloc: duplicate the name and module strings, allocate the
definition; on any allocation failure free everything and return NULL
with the registry untouched; on success initialise every field to NULL,
push the definition at the head of `allFilters` under the global lock,
and return it.  `nameOk`, `moduleOk`, `defOk` model the success of the
two MXS_STRDUP calls and the MXS_MALLOC call; `freshId` is the address
of the new node. -/
def filter_alloc (nameOk moduleOk defOk : Bool) (freshId : Ptr)
    (name moduleName : String) (allFilters : List FILTER_DEF) :
    Option FILTER_DEF × List FILTER_DEF :=
  let name? : Option String := if nameOk then some name else none
  let module? : Option String := if moduleOk then some moduleName else none
  match name?, module?, defOk with
  | some n, some m, true =>
    let fd : FILTER_DEF :=
      { id := freshId, name := n, module := m, options := none,
        parameters := none, filter := none, obj := none }
    (some fd, fd :: allFilters)
  | _, _, _ => (none, allFilters)

/-- filter_find: linear scan of `allFilters` under the global lock,
returning the first definition whose name matches. -/
def filter_find (name : String) (allFilters : List FILTER_DEF) :
    Option FILTER_DEF :=
  allFilters.find? (fun f => f.name == name)

/-- filter_free: `if (filter)` guard, then unlink the node (by pointer
identity) from `allFilters`; unlinking is a no-op when the node is not in
the list.  The subsequent memory release has no registry-visible
effect. -/
def filter_free (filter : Option FILTER_DEF) (allFilters : List FILTER_DEF) :
    List FILTER_DEF :=
  match filter with
  | none => allFilters
  | some f => allFilters.eraseP (fun g => g.id == f.id)

/-- filter_count_filters: walk `allFilters` under the global lock,
counting the nodes. -/
def filter_count_filters : List FILTER_DEF → Nat
  | [] => 0
  | _ :: rest => filter_count_filters rest + 1

/-- filter_standard_parameter: returns 1 when the name strcmp-equals
"type" or "module", else 0 (C int return). -/
def filter_standard_parameter (name : String) : Nat :=
  if name = "type" ∨ name = "module" then 1 else 0

/-- Loop `for (i = 0; options[i]; i++)`: number of leading non-NULL
entries of a null-terminated array. -/
def countOptions : List (Option String) → Nat
  | [] => 0
  | none :: _ => 0
  | some _ :: rest => countOptions rest + 1

/-- filterAddOption: when `options` is NULL, calloc a 2-slot array
holding the copied option and the NULL sentinel; otherwise count the
existing entries `i`, realloc to `i + 2` slots (keeping the first `i`
live entries), write the new option at index `i` and NULL at `i + 1`.
Allocation failure aborts (MXS_ABORT_IF_NULL), so it has no modelled
outcome. -/
def filterAddOption (options : Option (List (Option String)))
    (option : String) : List (Option String) :=
  match options with
  | none => [some option, none]
  | some arr =>
    let i := countOptions arr
    arr.take i ++ [some option, none]

/-- Iterate filterAddOption over a sequence of option strings, starting
from a given options array (NULL for a fresh definition). -/
def addOptions (options : Option (List (Option String))) :
    List String → Option (List (Option String))
  | [] => options
  | o :: rest => addOptions (some (filterAddOption options o)) rest

/-- Result of filter_load: the boolean return value, the (possibly
updated) definition (`none` when the argument pointer was NULL), and
effect flags recording whether `load_module` and `createInstance` were
invoked during the call. -/
structure LoadResult where
  rval : Bool
  filter : Option FILTER_DEF
  calledLoadModule : Bool
  calledCreateInstance : Bool

/-- filter_load: load the filter module and create its shared instance,
lazily.  `rval` starts false; a NULL definition returns false.  If the
instance already exists, return true with nothing done.  Otherwise, if
the module object is NULL, call `load_module` (the external module
loader, passed in as `lm`); a NULL result is logged and leaves `obj`
NULL.  With a module object in hand, call `createInstance(name, options,
parameters)`: a non-NULL result is stored in `filter` and yields true, a
NULL result is logged and yields false. -/
def filter_load (lm : String → Option FILTER_OBJECT) :
    Option FILTER_DEF → LoadResult
  | none => ⟨false, none, false, false⟩
  | some fd =>
    match fd.filter with
    | some _ => ⟨true, some fd, false, false⟩
    | none =>
      match fd.obj with
      | none =>
        match lm fd.module with
        | none => ⟨false, some fd, true, false⟩
        | some o =>
          match o.createInstance fd.name fd.options fd.parameters with
          | some inst =>
            ⟨true, some { fd with obj := some o, filter := some inst },
              true, true⟩
          | none => ⟨false, some { fd with obj := some o }, true, true⟩
      | some o =>
        match o.createInstance fd.name fd.options fd.parameters with
        | some inst => ⟨true, some { fd with filter := some inst }, false, true⟩
        | none => ⟨false, some fd, false, true⟩

/-- Result of filterApply: the returned DOWNSTREAM pointer (NULL on
failure), the successor passed to `setDownstream` (`none` when
setDownstream was not invoked), and how many chain nodes were
allocated / freed during the call. -/
structure ApplyResult where
  result : Option DOWNSTREAM
  setDownstreamArg : Option DOWNSTREAM
  nodesAllocated : Nat
  nodesFreed : Nat
deriving Repr

/-- filterApply: calloc a DOWNSTREAM node (`allocOk` models the calloc
outcome; NULL returns NULL directly), bind the shared instance and the
module's routeQuery entry point, call `newSession(instance, session)`;
a NULL session handle frees the node and returns NULL; otherwise call
`setDownstream(instance, session, downstream)` and return the node.
The C code dereferences `filter->obj` unconditionally (callers invoke it
only after a successful filter_load), so the NULL-obj case is matched
here only to keep the function total; it yields the failure result. -/
def filterApply (allocOk : Bool) (filter : FILTER_DEF) (session : Ptr)
    (downstream : DOWNSTREAM) : ApplyResult :=
  match filter.obj with
  | none => ⟨none, none, 0, 0⟩
  | some obj =>
    match allocOk with
    | false => ⟨none, none, 0, 0⟩
    | true =>
      let inst := filter.filter
      match obj.newSession inst session with
      | none => ⟨none, none, 1, 1⟩
      | some fsess =>
        ⟨some ⟨inst, obj.routeQuery, some fsess⟩, some downstream, 1, 0⟩

/-- filterUpstream: `me` starts NULL.  If the module's setUpstream entry
point is NULL the filter is left out of the upstream chain and the given
`upstream` is returned unchanged.  Otherwise, only if clientReply is
non-NULL is a node calloc'd (`allocOk`; NULL returns NULL), filled with
the shared instance, the filter session and the clientReply entry point,
and spliced via `setUpstream`; when clientReply is NULL, `me` — still
NULL — is returned.  As in filterApply, the NULL-obj match only keeps
the function total. -/
def filterUpstream (allocOk : Bool) (filter : FILTER_DEF)
    (fsession : Option Ptr) (upstream : UPSTREAM) : Option UPSTREAM :=
  match filter.obj with
  | none => none
  | some obj =>
    match obj.setUpstream with
    | none => some upstream
    | some _ =>
      match obj.clientReply with
      | none => none
      | some cr =>
        match allocOk with
        | false => none
        | true => some ⟨filter.filter, fsession, some cr⟩

/-- Register a list of (address, name, module) filter specifications via
filter_alloc, each allocation succeeding, threading the registry. -/
def register_all (specs : List (Ptr × String × String))
    (allFilters : List FILTER_DEF) : List FILTER_DEF :=
  specs.foldl (fun r s => (filter_alloc true true true s.1 s.2.1 s.2.2 r).2)
    allFilters

/-- CACHE_DEFAULT_MAX_RESULTSET_ROWS: UINT32_MAX (count). -/
def CACHE_DEFAULT_MAX_RESULTSET_ROWS : Nat := 4294967295

/-- CACHE_DEFAULT_MAX_RESULTSET_SIZE: 64 * 1024 (bytes). -/
def CACHE_DEFAULT_MAX_RESULTSET_SIZE : Nat := 64 * 1024

/-- CACHE_DEFAULT_TTL: 10 (seconds). -/
def CACHE_DEFAULT_TTL : Nat := 10

/-- The definition produced by a fully successful filter_alloc for a
given (address, name, module) specification. -/
def mkFilterDef (s : Ptr × String × String) : FILTER_DEF :=
  { id := s.1, name := s.2.1, module := s.2.2, options := none,
    parameters := none, filter := none, obj := none }

/-- Concrete module object exposing setUpstream but not clientReply. -/
def objUpNoReply : FILTER_OBJECT :=
  { createInstance := fun _ _ _ => some 11, newSession := fun _ _ => some 21,
    setUpstream := some 31, clientReply := none, routeQuery := 41 }

/-- Concrete loaded definition bound to objUpNoReply, instance created. -/
def fdUpNoReply : FILTER_DEF :=
  { id := 1, name := "f1", module := "m1", options := none,
    parameters := none, filter := some 5, obj := some objUpNoReply }

/-- Concrete module object with no setUpstream entry point. -/
def objNoUp : FILTER_OBJECT :=
  { createInstance := fun _ _ _ => some 12, newSession := fun _ _ => some 22,
    setUpstream := none, clientReply := some 32, routeQuery := 42 }

/-- Concrete loaded definition bound to objNoUp. -/
def fdNoUp : FILTER_DEF :=
  { id := 2, name := "f2", module := "m2", options := none,
    parameters := none, filter := some 6, obj := some objNoUp }

/-- Concrete module object whose newSession always fails. -/
def objNoSession : FILTER_OBJECT :=
  { createInstance := fun _ _ _ => some 13, newSession := fun _ _ => none,
    setUpstream := none, clientReply := none, routeQuery := 43 }

/-- Concrete loaded definition bound to objNoSession. -/
def fdNoSession : FILTER_DEF :=
  { id := 3, name := "f3", module := "m3", options := none,
    parameters := none, filter := some 7, obj := some objNoSession }

/-- Concrete chain node standing for the network sink. -/
def dsSink : DOWNSTREAM := { inst := some 0, routeQuery := 0, session := some 0 }

/-- Concrete upstream chain node handed in by the caller. -/
def upNode : UPSTREAM := { inst := some 9, session := some 8, clientReply := some 7 }

/-- Concrete module object whose createInstance always fails. -/
def objFailCI : FILTER_OBJECT :=
  { createInstance := fun _ _ _ => none, newSession := fun _ _ => some 24,
    setUpstream := none, clientReply := none, routeQuery := 44 }

/-- Concrete fresh definition: nothing loaded yet. -/
def fdFresh : FILTER_DEF :=
  { id := 4, name := "f4", module := "m4", options := none,
    parameters := none, filter := none, obj := none }

/-- Concrete definition whose module is loaded but whose createInstance
fails. -/
def fdFailCI : FILTER_DEF :=
  { id := 6, name := "f6", module := "m6", options := none,
    parameters := none, filter := none, obj := some objFailCI }

/-- Module loader that never finds a module. -/
def lmNone : String → Option FILTER_OBJECT := fun _ => none

/-- Module loader that always yields objFailCI. -/
def lmFail : String → Option FILTER_OBJECT := fun _ => some objFailCI

/-- A previously registered definition named "x". -/
def gdup : FILTER_DEF := mkFilterDef (5, "x", "mOld")

/-! Theorems. -/

/-- Claim C9: the CacheStage configuration defaults are 64 KiB (65536
bytes) for max_resultset_size, 10 seconds for ttl, and the maximum
representable 32-bit count (so unbounded in practice) for
max_resultset_rows. -/
theorem cache_config_defaults :
    CACHE_DEFAULT_MAX_RESULTSET_SIZE = 65536 ∧
    CACHE_DEFAULT_TTL = 10 ∧
    CACHE_DEFAULT_MAX_RESULTSET_ROWS = 2 ^ 32 - 1 := by
  refine ⟨by decide, rfl, by decide⟩

/-- Claim C8: filter_standard_parameter returns 1 (true) exactly when
the name is "type" or "module", and 0 (false) for every other name. -/
theorem filter_standard_parameter_spec (name : String) :
    (filter_standard_parameter name = 1 ↔ (name = "type" ∨ name = "module")) ∧
    (filter_standard_parameter name = 0 ↔ ¬(name = "type" ∨ name = "module")) := by
  unfold filter_standard_parameter
  split <;> simp_all

/-- Witness for filter_standard_parameter_spec at name = "type". -/
theorem filter_standard_parameter_spec_witness :
    (filter_standard_parameter "type" = 1 ↔
      ("type" = "type" ∨ "type" = "module")) ∧
    (filter_standard_parameter "type" = 0 ↔
      ¬("type" = "type" ∨ "type" = "module")) :=
  filter_standard_parameter_spec "type"

/-- Counterexample to claim C1 as stated: a filter whose module provides
setUpstream but no clientReply is not skipped with `nextUpstream`
returned unchanged — filterUpstream returns NULL instead. -/
theorem filterUpstream_noclientReply_counterexample :
    fdUpNoReply.obj = some objUpNoReply ∧
    objUpNoReply.setUpstream = some 31 ∧
    objUpNoReply.clientReply = none ∧
    filterUpstream true fdUpNoReply (some 3) upNode = none ∧
    filterUpstream true fdUpNoReply (some 3) upNode ≠ some upNode := by
  refine ⟨rfl, rfl, rfl, rfl, by decide⟩

/-- Claim C1 (amended): when the module provides no setUpstream entry
point, filterUpstream returns `upstream` unchanged (the filter is
skipped); when the module provides setUpstream but no clientReply, the
filter is likewise not inserted, but the call returns NULL rather than
`upstream`. -/
theorem filterUpstream_skip (allocOk : Bool) (filter : FILTER_DEF)
    (obj : FILTER_OBJECT) (fsession : Option Ptr) (upstream : UPSTREAM)
    (hobj : filter.obj = some obj) :
    (obj.setUpstream = none →
      filterUpstream allocOk filter fsession upstream = some upstream) ∧
    (∀ p, obj.setUpstream = some p → obj.clientReply = none →
      filterUpstream allocOk filter fsession upstream = none) := by
  constructor
  · intro h
    simp [filterUpstream, hobj, h]
  · intro p hp hcr
    simp [filterUpstream, hobj, hp, hcr]

/-- Witness for filterUpstream_skip at a concrete loaded definition. -/
theorem filterUpstream_skip_witness :
    fdNoUp.obj = some objNoUp ∧
    ((objNoUp.setUpstream = none →
      filterUpstream true fdNoUp (some 3) upNode = some upNode) ∧
     (∀ p, objNoUp.setUpstream = some p → objNoUp.clientReply = none →
      filterUpstream true fdNoUp (some 3) upNode = none)) :=
  ⟨rfl, filterUpstream_skip true fdNoUp objNoUp (some 3) upNode rfl⟩

/-- Claim C4: when newSession returns no per-session handle, filterApply
frees the freshly calloc'd node (one allocated, one freed), returns NULL,
and never calls setDownstream. -/
theorem filterApply_newSession_failure (filter : FILTER_DEF)
    (obj : FILTER_OBJECT) (session : Ptr) (downstream : DOWNSTREAM)
    (hobj : filter.obj = some obj)
    (hns : obj.newSession filter.filter session = none) :
    filterApply true filter session downstream =
      { result := none, setDownstreamArg := none,
        nodesAllocated := 1, nodesFreed := 1 } := by
  simp [filterApply, hobj, hns]

/-- Witness for filterApply_newSession_failure at a concrete definition
whose module's newSession always fails. -/
theorem filterApply_newSession_failure_witness :
    fdNoSession.obj = some objNoSession ∧
    objNoSession.newSession fdNoSession.filter 3 = none ∧
    filterApply true fdNoSession 3 dsSink =
      { result := none, setDownstreamArg := none,
        nodesAllocated := 1, nodesFreed := 1 } :=
  ⟨rfl, rfl, filterApply_newSession_failure fdNoSession objNoSession 3 dsSink rfl rfl⟩

/-- Claim C5: filter_alloc returns NULL exactly when duplicating the name
or module string or allocating the definition fails, and then leaves the
registry unchanged; on success it pushes the new definition at the head
of the registry, and filter_find on that name returns a definition
carrying the given name and module with NULL (empty) options and
parameters. -/
theorem filter_alloc_spec (nameOk moduleOk defOk : Bool) (freshId : Ptr)
    (name moduleName : String) (reg : List FILTER_DEF) :
    ((filter_alloc nameOk moduleOk defOk freshId name moduleName reg).1 = none
      ↔ (nameOk && moduleOk && defOk) = false) ∧
    ((nameOk && moduleOk && defOk) = false →
      filter_alloc nameOk moduleOk defOk freshId name moduleName reg
        = (none, reg)) ∧
    ((nameOk && moduleOk && defOk) = true →
      ∃ fd, filter_alloc nameOk moduleOk defOk freshId name moduleName reg
          = (some fd, fd :: reg) ∧
        filter_find name (fd :: reg) = some fd ∧
        fd.name = name ∧ fd.module = moduleName ∧
        fd.options = none ∧ fd.parameters = none) := by
  cases nameOk <;> cases moduleOk <;> cases defOk <;>
    simp [filter_alloc, filter_find]

/-- Witness for filter_alloc_spec: a failing and a succeeding
allocation into the empty registry. -/
theorem filter_alloc_spec_witness :
    (filter_alloc true true false 7 "x" "m" []).1 = none ∧
    filter_alloc true true false 7 "x" "m" [] = (none, []) ∧
    ∃ fd, filter_alloc true true true 7 "x" "m" [] = (some fd, fd :: []) ∧
      filter_find "x" (fd :: []) = some fd ∧
      fd.name = "x" ∧ fd.module = "m" ∧
      fd.options = none ∧ fd.parameters = none :=
  ⟨(filter_alloc_spec true true false 7 "x" "m" []).1.mpr rfl,
   (filter_alloc_spec true true false 7 "x" "m" []).2.1 rfl,
   (filter_alloc_spec true true true 7 "x" "m" []).2.2 rfl⟩

/-- Claim C10: the registry does not enforce name uniqueness — even when
a definition with the same name is already registered, filter_alloc
succeeds and pushes the new definition at the head, and filter_find on
the duplicated name returns that most recently allocated definition
(the first match of the head-first linear scan). -/
theorem filter_find_duplicate (reg : List FILTER_DEF) (freshId : Ptr)
    (name moduleName : String) (g : FILTER_DEF) (hg : g ∈ reg)
    (hname : g.name = name) :
    ∃ fd, filter_alloc true true true freshId name moduleName reg
        = (some fd, fd :: reg) ∧
      fd.id = freshId ∧ fd.name = name ∧ fd.module = moduleName ∧
      filter_find name (fd :: reg) = some fd := by
  refine ⟨mkFilterDef (freshId, name, moduleName), rfl, rfl, rfl, rfl, ?_⟩
  simp [filter_find, mkFilterDef]

/-- Witness for filter_find_duplicate: allocating a second filter named
"x" over a registry already holding one. -/
theorem filter_find_duplicate_witness :
    gdup ∈ [gdup] ∧ gdup.name = "x" ∧
    ∃ fd, filter_alloc true true true 9 "x" "mNew" [gdup]
        = (some fd, fd :: [gdup]) ∧
      fd.id = 9 ∧ fd.name = "x" ∧ fd.module = "mNew" ∧
      filter_find "x" (fd :: [gdup]) = some fd :=
  ⟨List.mem_cons_self gdup [], rfl,
   filter_find_duplicate [gdup] 9 "x" "mNew" gdup (List.mem_cons_self gdup []) rfl⟩

/-- Helper: on a definition whose shared instance already exists,
filter_load returns success immediately, leaves the definition
untouched, and invokes neither load_module nor createInstance. -/
theorem filter_load_of_instance (lm : String → Option FILTER_OBJECT)
    (fd : FILTER_DEF) (h : fd.filter.isSome = true) :
    filter_load lm (some fd) = ⟨true, some fd, false, false⟩ := by
  rcases hf : fd.filter with _ | inst
  · rw [hf] at h
    simp at h
  · simp [filter_load, hf]

/-- Helper: whenever filter_load reports success, the definition it
hands back has its shared instance set. -/
theorem filter_load_success_has_instance (lm : String → Option FILTER_OBJECT)
    (gd gd' : FILTER_DEF)
    (h1 : (filter_load lm (some gd)).rval = true)
    (h2 : (filter_load lm (some gd)).filter = some gd') :
    gd'.filter.isSome = true := by
  rcases hf : gd.filter with _ | i
  · rcases ho : gd.obj with _ | o
    · rcases hm : lm gd.module with _ | o2
      · simp [filter_load, hf, ho, hm] at h1
      · rcases hc : o2.createInstance gd.name gd.options gd.parameters with _ | j
        · simp [filter_load, hf, ho, hm, hc] at h1
        · simp [filter_load, hf, ho, hm, hc] at h2
          simp [← h2]
    · rcases hc : o.createInstance gd.name gd.options gd.parameters with _ | j
      · simp [filter_load, hf, ho, hc] at h1
      · simp [filter_load, hf, ho, hc] at h2
        simp [← h2]
  · simp [filter_load, hf] at h2
    simp [← h2, hf]

/-- Claim C2: filter_load is idempotent — on a definition whose shared
instance already exists it performs no module loading and no instance
creation and returns success unchanged; consequently a second call after
any successful call is such a no-op success, so two calls create exactly
one shared instance. -/
theorem filter_load_idempotent (lm : String → Option FILTER_OBJECT)
    (fd gd gd' : FILTER_DEF) (inst : Ptr)
    (h : fd.filter = some inst)
    (h1 : (filter_load lm (some gd)).rval = true)
    (h2 : (filter_load lm (some gd)).filter = some gd') :
    filter_load lm (some fd) = ⟨true, some fd, false, false⟩ ∧
    filter_load lm (some gd') = ⟨true, some gd', false, false⟩ :=
  ⟨filter_load_of_instance lm fd (by simp [h]),
   filter_load_of_instance lm gd'
     (filter_load_success_has_instance lm gd gd' h1 h2)⟩

/-- Witness for filter_load_idempotent: a definition with an existing
instance, and a fresh definition whose load succeeds via a loader whose
createInstance yields an instance. -/
theorem filter_load_idempotent_witness :
    fdUpNoReply.filter = some 5 ∧
    (filter_load (fun _ => some objUpNoReply) (some fdFresh)).rval = true ∧
    (filter_load (fun _ => some objUpNoReply) (some fdFresh)).filter =
      some { fdFresh with obj := some objUpNoReply, filter := some 11 } ∧
    (filter_load (fun _ => some objUpNoReply) (some fdUpNoReply) =
        ⟨true, some fdUpNoReply, false, false⟩ ∧
     filter_load (fun _ => some objUpNoReply)
        (some { fdFresh with obj := some objUpNoReply, filter := some 11 }) =
       ⟨true, some { fdFresh with obj := some objUpNoReply, filter := some 11 },
         false, false⟩) :=
  ⟨rfl, rfl, rfl,
   filter_load_idempotent (fun _ => some objUpNoReply) fdUpNoReply fdFresh
     { fdFresh with obj := some objUpNoReply, filter := some 11 } 5 rfl rfl rfl⟩

/-- Claim C3: filter_load surfaces failures as the boolean false (it is a
total Bool-valued function, never an exception) and caches no failure:
after a module-load failure the definition is returned with the module
handle still absent and a later call invokes load_module again; after a
createInstance failure the instance stays absent and a later call
invokes createInstance again. -/
theorem filter_load_retries_after_failure
    (lm lm2 lm3 : String → Option FILTER_OBJECT)
    (fd gd : FILTER_DEF) (o : FILTER_OBJECT)
    (h1 : fd.filter = none) (h2 : fd.obj = none) (h3 : lm fd.module = none)
    (h4 : gd.filter = none) (h5 : gd.obj = some o)
    (h6 : o.createInstance gd.name gd.options gd.parameters = none) :
    filter_load lm (some fd) = ⟨false, some fd, true, false⟩ ∧
    (filter_load lm2 (some fd)).calledLoadModule = true ∧
    filter_load lm3 (some gd) = ⟨false, some gd, false, true⟩ ∧
    (filter_load lm2 (some gd)).calledCreateInstance = true := by
  refine ⟨by simp [filter_load, h1, h2, h3], ?_, ?_, ?_⟩
  · rcases hm : lm2 fd.module with _ | o2
    · simp [filter_load, h1, h2, hm]
    · rcases hc : o2.createInstance fd.name fd.options fd.parameters with _ | j <;>
        simp [filter_load, h1, h2, hm, hc]
  · simp [filter_load, h4, h5, h6]
  · rcases hc : o.createInstance gd.name gd.options gd.parameters with _ | j <;>
      simp [filter_load, h4, h5, hc]

/-- Witness for filter_load_retries_after_failure: a fresh definition
with a loader that finds nothing, and a loaded definition whose
createInstance always fails. -/
theorem filter_load_retries_after_failure_witness :
    fdFresh.filter = none ∧ fdFresh.obj = none ∧ lmNone fdFresh.module = none ∧
    fdFailCI.filter = none ∧ fdFailCI.obj = some objFailCI ∧
    objFailCI.createInstance fdFailCI.name fdFailCI.options
      fdFailCI.parameters = none ∧
    (filter_load lmNone (some fdFresh) = ⟨false, some fdFresh, true, false⟩ ∧
     (filter_load lmFail (some fdFresh)).calledLoadModule = true ∧
     filter_load lmNone (some fdFailCI) = ⟨false, some fdFailCI, false, true⟩ ∧
     (filter_load lmFail (some fdFailCI)).calledCreateInstance = true) :=
  ⟨rfl, rfl, rfl, rfl, rfl, rfl,
   filter_load_retries_after_failure lmNone lmFail lmNone fdFresh fdFailCI
     objFailCI rfl rfl rfl rfl rfl rfl⟩

/-- Helper: on a sentinel-terminated options array the counting loop of
filterAddOption finds exactly the live entries. -/
theorem countOptions_wf (xs : List String) :
    countOptions (xs.map some ++ [none]) = xs.length := by
  induction xs with
  | nil => rfl
  | cons x t ih => simp [countOptions, ih]

/-- Helper: taking the live entries of a sentinel-terminated array drops
exactly the sentinel. -/
theorem take_map_some (xs : List String) :
    (xs.map some ++ [none]).take xs.length = xs.map some := by
  have h : (xs.map some).length = xs.length := List.length_map xs some
  rw [← h]
  exact List.take_left (xs.map some) [none]

/-- Helper: one filterAddOption call on a sentinel-terminated array
appends exactly the given option and restores the sentinel. -/
theorem filterAddOption_wf (xs : List String) (o : String) :
    filterAddOption (some (xs.map some ++ [none])) o =
      (xs ++ [o]).map some ++ [none] := by
  simp [filterAddOption, countOptions_wf, take_map_some]

/-- Helper: iterating filterAddOption over a call sequence appends the
whole sequence, keeping the array sentinel-terminated. -/
theorem addOptions_wf (xs os : List String) :
    addOptions (some (xs.map some ++ [none])) os =
      some ((xs ++ os).map some ++ [none]) := by
  induction os generalizing xs with
  | nil => simp [addOptions]
  | cons o rest ih =>
    rw [addOptions, filterAddOption_wf, ih (xs ++ [o])]
    simp

/-- Claim C7: starting from a fresh definition (NULL options), a
sequence of filterAddOption calls loses no option — the final array
holds exactly the appended options in order, the live-entry count equals
the number of calls — and each single call on a sentinel-terminated
array appends exactly one option and leaves the array
sentinel-terminated. -/
theorem filterAddOption_appends (os : List String) (h : os ≠ []) :
    addOptions none os = some (os.map some ++ [none]) ∧
    countOptions (os.map some ++ [none]) = os.length ∧
    (∀ xs o, filterAddOption (some (xs.map some ++ [none])) o =
      (xs ++ [o]).map some ++ [none]) := by
  refine ⟨?_, countOptions_wf os, filterAddOption_wf⟩
  rcases os with _ | ⟨o, rest⟩
  · exact absurd rfl h
  · rw [addOptions]
    have h0 : filterAddOption none o = [o].map some ++ [none] := rfl
    rw [h0, addOptions_wf [o] rest]
    simp

/-- Witness for filterAddOption_appends on the two-call sequence
["a", "b"]. -/
theorem filterAddOption_appends_witness :
    (["a", "b"] : List String) ≠ [] ∧
    (addOptions none ["a", "b"] = some (["a", "b"].map some ++ [none]) ∧
     countOptions (["a", "b"].map some ++ [none]) = (["a", "b"] : List String).length ∧
     (∀ xs o, filterAddOption (some (xs.map some ++ [none])) o =
       (xs ++ [o]).map some ++ [none])) :=
  ⟨by decide, filterAddOption_appends ["a", "b"] (by decide)⟩

/-- Helper: the counting loop of filter_count_filters computes the list
length. -/
theorem filter_count_eq_length (reg : List FILTER_DEF) :
    filter_count_filters reg = reg.length := by
  induction reg with
  | nil => rfl
  | cons f t ih => simp [filter_count_filters, ih]

/-- Helper: registering a specification list pushes, head first, exactly
the definitions filter_alloc builds for it. -/
theorem register_all_eq (specs : List (Ptr × String × String))
    (reg : List FILTER_DEF) :
    register_all specs reg = (specs.map mkFilterDef).reverse ++ reg := by
  induction specs generalizing reg with
  | nil => simp [register_all]
  | cons s rest ih =>
    have hstep : register_all (s :: rest) reg
        = register_all rest (mkFilterDef s :: reg) := rfl
    rw [hstep, ih (mkFilterDef s :: reg)]
    simp

/-- Helper: with pairwise-distinct addresses, the unlink scan removes
the definition itself: it is no longer a member afterwards. -/
theorem not_mem_eraseP_of_nodup (f : FILTER_DEF) (reg : List FILTER_DEF)
    (hi : (reg.map FILTER_DEF.id).Nodup) :
    f ∉ reg.eraseP (fun g => g.id == f.id) := by
  induction reg with
  | nil => simp
  | cons g t ih =>
    simp only [List.map_cons, List.nodup_cons] at hi
    rw [List.eraseP_cons]
    by_cases hid : g.id = f.id
    · simp only [hid, beq_self_eq_true, cond_true]
      intro hft
      exact hi.1 (hid ▸ List.mem_map_of_mem FILTER_DEF.id hft)
    · have hb : (g.id == f.id) = false := by simpa using hid
      simp only [hb, cond_false, List.mem_cons, not_or]
      constructor
      · intro hfg
        exact hid (by rw [hfg])
      · exact ih hi.2

/-- Helper: unlinking a definition (by pointer identity) from a registry
with pairwise-distinct names and addresses removes every definition
bearing its name, so the subsequent name scan fails. -/
theorem find_after_eraseP (reg : List FILTER_DEF) (f : FILTER_DEF)
    (hf : f ∈ reg) (hn : (reg.map FILTER_DEF.name).Nodup)
    (hi : (reg.map FILTER_DEF.id).Nodup) :
    (reg.eraseP (fun g => g.id == f.id)).find? (fun g => g.name == f.name)
      = none := by
  rw [List.find?_eq_none]
  intro x hx hpx
  have hxreg : x ∈ reg := List.mem_of_mem_eraseP hx
  have hxf : x = f := by
    apply List.inj_on_of_nodup_map hn hxreg hf
    simpa using hpx
  rw [hxf] at hx
  exact absurd hx (not_mem_eraseP_of_nodup f reg hi)

/-- Claim C6: registering N filters with distinct names (at distinct
addresses) yields filter_count_filters = N; freeing any one of them
yields N - 1 and filter_find no longer locates its name. -/
theorem filter_registry_count_free_find
    (specs : List (Ptr × String × String))
    (hn : (specs.map (fun s => s.2.1)).Nodup)
    (hi : (specs.map (fun s => s.1)).Nodup) :
    filter_count_filters (register_all specs []) = specs.length ∧
    ∀ f ∈ register_all specs [],
      filter_count_filters (filter_free (some f) (register_all specs []))
          = specs.length - 1 ∧
      filter_find f.name (filter_free (some f) (register_all specs []))
          = none := by
  have hreg : register_all specs [] = (specs.map mkFilterDef).reverse := by
    simpa using register_all_eq specs []
  have hlen : (register_all specs []).length = specs.length := by
    simp [hreg]
  have hnames : ((register_all specs []).map FILTER_DEF.name).Nodup := by
    rw [hreg, List.map_reverse, List.nodup_reverse, List.map_map]
    exact hn
  have hids : ((register_all specs []).map FILTER_DEF.id).Nodup := by
    rw [hreg, List.map_reverse, List.nodup_reverse, List.map_map]
    exact hi
  refine ⟨by rw [filter_count_eq_length, hlen], ?_⟩
  intro f hfmem
  have hfree : filter_free (some f) (register_all specs [])
      = (register_all specs []).eraseP (fun g => g.id == f.id) := rfl
  constructor
  · rw [hfree, filter_count_eq_length]
    rw [List.length_eraseP_of_mem hfmem (by simp)]
    rw [hlen]
  · rw [hfree]
    exact find_after_eraseP (register_all specs []) f hfmem hnames hids

/-- Witness for filter_registry_count_free_find on two filters named
"a" and "b". -/
theorem filter_registry_count_free_find_witness :
    (([(0, "a", "ma"), (1, "b", "mb")].map
        (fun s : Ptr × String × String => s.2.1)).Nodup) ∧
    (([(0, "a", "ma"), (1, "b", "mb")].map
        (fun s : Ptr × String × String => s.1)).Nodup) ∧
    (filter_count_filters (register_all [(0, "a", "ma"), (1, "b", "mb")] [])
        = 2 ∧
     ∀ f ∈ register_all [(0, "a", "ma"), (1, "b", "mb")] [],
       filter_count_filters
           (filter_free (some f)
             (register_all [(0, "a", "ma"), (1, "b", "mb")] [])) = 2 - 1 ∧
       filter_find f.name
           (filter_free (some f)
             (register_all [(0, "a", "ma"), (1, "b", "mb")] [])) = none) :=
  ⟨by decide, by decide,
   filter_registry_count_free_find [(0, "a", "ma"), (1, "b", "mb")]
     (by decide) (by decide)⟩

end MaxScale
